import Mathlib

/-!
Shallow embedding of `apps/viewer/pages/api/integrations/stripe/createPaymentIntent.ts`.

The handler resolves encrypted Stripe credentials, selects test vs. live keys from a
preview flag, interpolates runtime variables into the amount and receipt-email
expressions, converts the amount to integer minor units, calls the payment gateway,
and normalizes failures.  External collaborators (the credential store, the `decrypt`
helper from the `utils` package, the `parseVariables` interpolator from `bot-engine`,
and the Stripe client) are modelled as an injected environment of functions, as §9 of
the specification directs.  JavaScript numbers produced by `Number(...)` are modelled
as exact rationals (`Option ℚ`, with `none` playing the role of `NaN`); the model
covers plain decimal numeric strings, which is the shape relevant to amounts.
-/

attribute [local semireducible] Rat.mul Rat.add Rat.sub

namespace CreatePaymentIntent

/-- Runtime variable binding, consumed opaquely by the interpolator. -/
structure Variable where
  name : String
  value : String
deriving DecidableEq, Repr

/-- Modelled from the spec: `PaymentInputOptions.additionalInformation` from the
`models` package (not under `src/`); it carries the optional receipt-email
expression. -/
structure AdditionalInfo where
  email : Option String
deriving DecidableEq, Repr

/-- Modelled from the spec: `PaymentInputOptions` from the `models` package (not
under `src/`): `{credentialsId, amountExpression, currencyCode, receiptEmailExpression?}`.
`credentialsId` is optional in the record (its absence is checked by the handler). -/
structure PaymentInputOptions where
  credentialsId : Option String
  amount : String
  currency : String
  additionalInformation : Option AdditionalInfo
deriving DecidableEq, Repr

/-- Parsed POST body: `{inputOptions, isPreview, variables}` (the source field
`variables` is spelled `vars` because `variables` is reserved in Lean). -/
structure RequestBody where
  inputOptions : PaymentInputOptions
  isPreview : Bool
  vars : List Variable
deriving DecidableEq, Repr

/-- The incoming API request: HTTP method plus parsed body. -/
structure ApiRequest where
  method : String
  body : RequestBody
deriving DecidableEq, Repr

/-- One environment entry of the credential set: a public/secret key pair. -/
structure StripeKeys where
  publicKey : String
  secretKey : String
deriving DecidableEq, Repr

/-- Modelled from the spec: `StripeCredentialsData` from the `models` package (not
under `src/`): a decrypted credential set with two optional environment entries,
`test` and `live` (spec §3). -/
structure StripeCredentialsData where
  live : Option StripeKeys
  test : Option StripeKeys
deriving DecidableEq, Repr

/-- An encrypted credential record from the store: opaque blob plus initialization
vector. -/
structure CredentialsRecord where
  data : String
  iv : String
deriving DecidableEq, Repr

/-- The nested `raw` payload of a structured Stripe error. -/
structure RawPayload where
  statusCode : Nat
  type : String
  param : String
  message : String
deriving DecidableEq, Repr

/-- A thrown JavaScript error value.  `raw = some _` models an object that has a
`raw` property (the shape probed by `'raw' in error`); `raw = none` models any other
thrown value.  `message` stands for the rest of the error's serializable content. -/
structure JsError where
  raw : Option RawPayload
  message : String
deriving DecidableEq, Repr

/-- The argument object of `stripe.paymentIntents.create`. -/
structure PaymentIntentParams where
  amount : ℤ
  currency : String
  receipt_email : Option String
  automatic_payment_methods : Bool
deriving DecidableEq, Repr

/-- The gateway's successful payment-intent result (the handler only reads
`client_secret`). -/
structure PaymentIntent where
  client_secret : String
deriving DecidableEq, Repr

/-- A recorded invocation of the gateway: the secret key the client was constructed
with and the creation parameters. -/
structure GatewayCall where
  secretKey : String
  params : PaymentIntentParams
deriving DecidableEq, Repr

/-- Response bodies the handler can produce.  `empty` models the bare helper
responses (`forbidden`, `badRequest`, `methodNotAllowed`); `success` is the 200 body;
`errorNamed` is the structured-provider-error body `{error: {name, message}}`;
`errorRaw` is the generic body `{error: <serialized error>}` that forwards the thrown
value itself. -/
inductive Body where
  | empty : Body
  | success (clientSecret publicKey amountLabel : String) : Body
  | errorNamed (name message : String) : Body
  | errorRaw (e : JsError) : Body
deriving DecidableEq, Repr

/-- Outcome of one handler invocation: an HTTP response, or an exception that
escapes the handler (thrown outside the `try` block). -/
inductive Outcome where
  | response (status : Nat) (body : Body) : Outcome
  | crash (e : JsError) : Outcome
deriving DecidableEq, Repr

/-- Injected collaborators (spec §6): the credential store lookup
(`prisma.credentials.findUnique`), the `decrypt` helper, the `parseVariables`
interpolator (curried over the bindings, taking the possibly-absent template), and
the gateway call keyed by the secret key the client was constructed with.
`Except.error` models a thrown exception. -/
structure Env where
  findUnique : String → Option CredentialsRecord
  decrypt : String → String → Except JsError StripeCredentialsData
  parseVariables : List Variable → Option String → String
  paymentIntentsCreate : String → PaymentIntentParams → Except JsError PaymentIntent

deriving instance DecidableEq for Except

/-- JavaScript string truthiness for a possibly-absent string: `undefined` and the
empty string are falsy, every other string is truthy. -/
def truthyOpt : Option String → Bool
  | none => false
  | some s => s ≠ ""

/-- Whitespace stripped by JavaScript's string-to-number conversion. -/
def jsWhitespace (c : Char) : Bool :=
  c = ' ' || c = '\t' || c = '\n' || c = '\r' || c = '\x0b' || c = '\x0c'

/-- Strip leading and trailing whitespace from a character list. -/
def jsTrim (cs : List Char) : List Char :=
  ((cs.dropWhile jsWhitespace).reverse.dropWhile jsWhitespace).reverse

/-- Value of a nonempty all-digit character list; `none` otherwise. -/
def digitsVal? (cs : List Char) : Option ℕ :=
  if cs ≠ [] ∧ cs.all Char.isDigit then
    some (cs.foldl (fun a c => 10 * a + (c.toNat - 48)) 0)
  else none

/-- Parse an unsigned decimal literal (`"19"`, `"19.999"`, `"5."`, `".5"`) into an
exact rational; `none` models `NaN`. -/
def parseUnsignedDec (cs : List Char) : Option ℚ :=
  match cs.splitOn '.' with
  | [ip] => (digitsVal? ip).map (fun n => mkRat n 1)
  | [ip, fp] =>
    if ip = [] ∧ fp = [] then none
    else
      match (if ip = [] then some 0 else digitsVal? ip),
            (if fp = [] then some 0 else digitsVal? fp) with
      | some i, some f => some (mkRat (i * 10 ^ fp.length + f) (10 ^ fp.length))
      | _, _ => none
  | _ => none

/-- Modelled after the JavaScript `Number(...)` conversion on decimal numeric
strings: trims whitespace, maps the empty string to `0`, honours an optional sign,
and parses a decimal literal; `none` plays the role of `NaN`.  (Hexadecimal,
exponent and `Infinity` forms are outside the model.) -/
def jsNumber (s : String) : Option ℚ :=
  match jsTrim s.toList with
  | [] => some (mkRat 0 1)
  | '-' :: rest => (parseUnsignedDec rest).map (fun q => -q)
  | '+' :: rest => parseUnsignedDec rest
  | cs => parseUnsignedDec cs

/-- JavaScript `Math.round` on an exact rational: the nearest integer, with ties
rounded toward positive infinity (`⌊q + 1/2⌋`, written with `mkRat` so that the
definition evaluates by kernel reduction). -/
def jsRound (q : ℚ) : ℤ := ⌊q + mkRat 1 2⌋

/-- Lines 56–59 of the source: `Math.round(Number(resolved) * 100)` followed by the
`isNaN` check, with `none` propagating the `NaN` case. -/
def computeAmount (resolved : String) : Option ℤ :=
  match jsNumber resolved with
  | none => none
  | some q => some (jsRound (q * 100))

/-- The `TypeError` raised by JavaScript when a property of `undefined` is read
(e.g. `stripeKeys.live.secretKey` with no `live` entry).  It carries no `raw`
property. -/
def typeErrorUndefined : JsError :=
  { raw := none, message := "TypeError: Cannot read properties of undefined" }

/-- Truthiness of `stripeKeys?.test?.secretKey`: a test secret key exists and is a
nonempty string. -/
def hasTestSecretKey (stripeKeys : StripeCredentialsData) : Bool :=
  truthyOpt (stripeKeys.test.map StripeKeys.secretKey)

/-- The test secret key (`stripeKeys.test.secretKey`), read when `hasTestSecretKey`
holds. -/
def testSecretKey (stripeKeys : StripeCredentialsData) : String :=
  (stripeKeys.test.map StripeKeys.secretKey).getD ""

/-- Truthiness of `stripeKeys.test?.publicKey`: a test public key exists and is a
nonempty string. -/
def hasTestPublicKey (stripeKeys : StripeCredentialsData) : Bool :=
  truthyOpt (stripeKeys.test.map StripeKeys.publicKey)

/-- The test public key (`stripeKeys.test.publicKey`), read when `hasTestPublicKey`
holds. -/
def testPublicKey (stripeKeys : StripeCredentialsData) : String :=
  (stripeKeys.test.map StripeKeys.publicKey).getD ""

/-- Lines 50–55 of the source: the key the Stripe client is constructed with.
`isPreview && stripeKeys?.test?.secretKey ? stripeKeys.test.secretKey :
stripeKeys.live.secretKey`; reading `stripeKeys.live.secretKey` throws when the
`live` entry is absent. -/
def selectSecretKey (stripeKeys : StripeCredentialsData) (isPreview : Bool) :
    Except JsError String :=
  if isPreview && hasTestSecretKey stripeKeys then
    Except.ok (testSecretKey stripeKeys)
  else
    match stripeKeys.live with
    | none => Except.error typeErrorUndefined
    | some live => Except.ok live.secretKey

/-- Lines 76–79 of the source: the public key placed in the success response.
`isPreview && stripeKeys.test?.publicKey ? stripeKeys.test.publicKey :
stripeKeys.live.publicKey`; reading `stripeKeys.live.publicKey` throws when the
`live` entry is absent (inside the `try` block). -/
def selectPublicKey (stripeKeys : StripeCredentialsData) (isPreview : Bool) :
    Except JsError String :=
  if isPreview && hasTestPublicKey stripeKeys then
    Except.ok (testPublicKey stripeKeys)
  else
    match stripeKeys.live with
    | none => Except.error typeErrorUndefined
    | some live => Except.ok live.publicKey

/-- Lines 19–35 of the source: the fixed currency-symbol table. -/
def currencySymbols : List (String × String) :=
  [("USD", "$"), ("EUR", "€"), ("CRC", "₡"), ("GBP", "£"), ("ILS", "₪"),
   ("INR", "₹"), ("JPY", "¥"), ("KRW", "₩"), ("NGN", "₦"), ("PHP", "₱"),
   ("PLN", "zł"), ("PYG", "₲"), ("THB", "฿"), ("UAH", "₴"), ("VND", "₫")]

/-- Lookup in the currency-symbol table (`currencySymbols[code]`). -/
def currencySymbol? (code : String) : Option String :=
  (currencySymbols.find? (fun p => p.1 == code)).map Prod.snd

/-- Decimal rendering of `amount / 100` as JavaScript string conversion produces it
for exact cent amounts: no trailing fractional zeros, no decimal point for whole
numbers. -/
def renderCents (amount : ℤ) : String :=
  let sign := if amount < 0 then "-" else ""
  let a := amount.natAbs
  let ip := a / 100
  let frac := a % 100
  if frac = 0 then sign ++ toString ip
  else if frac % 10 = 0 then sign ++ toString ip ++ "." ++ toString (frac / 10)
  else sign ++ toString ip ++ "." ++ (if frac < 10 then "0" else "") ++ toString frac

/-- Lines 80–82 of the source: `` `${amount / 100}${currencySymbols[currency] ?? ` ${currency}`}` ``. -/
def amountLabel (amount : ℤ) (currency : String) : String :=
  renderCents amount ++
    (match currencySymbol? currency with
     | some symbol => symbol
     | none => " " ++ currency)

/-- Lines 84–95 of the source: the `catch` block.  `'raw' in error` selects the
structured branch `{statusCode: raw.statusCode, name: `${raw.type} ${raw.param}`,
message: raw.message}`; everything else is sent as a 500 with the error itself in
the body. -/
def catchBranch (error : JsError) : Outcome :=
  match error.raw with
  | some raw =>
    Outcome.response raw.statusCode (Body.errorNamed (raw.type ++ " " ++ raw.param) raw.message)
  | none => Outcome.response 500 (Body.errorRaw error)

/-- Lines 101–109 of the source: look up the credential record and decrypt it; a
missing record yields `none`, a decryption failure propagates as a thrown error. -/
def getStripeInfo (env : Env) (credentialsId : String) :
    Except JsError (Option StripeCredentialsData) :=
  match env.findUnique credentialsId with
  | none => Except.ok none
  | some credentials => (env.decrypt credentials.data credentials.iv).map some

/-- Lines 61–72 of the source: the argument object passed to
`stripe.paymentIntents.create` — the computed amount, the block's currency, the
interpolated receipt email (omitted when it interpolates to the empty string) and
`automatic_payment_methods: {enabled: true}`. -/
def paymentParams (env : Env) (req : ApiRequest) (amount : ℤ) : PaymentIntentParams :=
  let receiptEmail := env.parseVariables req.body.vars
    (req.body.inputOptions.additionalInformation.bind AdditionalInfo.email)
  { amount := amount
    currency := req.body.inputOptions.currency
    receipt_email := if receiptEmail = "" then none else some receiptEmail
    automatic_payment_methods := true }

/-- Lines 61–96 of the source: the tail of the handler once a secret key and a
valid amount are in hand — the `try`/`catch` around the gateway call and the
success response. -/
def gatewayStage (env : Env) (req : ApiRequest) (stripeKeys : StripeCredentialsData)
    (secretKey : String) (amount : ℤ) : Outcome × List GatewayCall :=
  let params := paymentParams env req amount
  match env.paymentIntentsCreate secretKey params with
  | Except.ok paymentIntent =>
    match selectPublicKey stripeKeys req.body.isPreview with
    | Except.error e => (catchBranch e, [⟨secretKey, params⟩])
    | Except.ok publicKey =>
      (Outcome.response 200
        (Body.success paymentIntent.client_secret publicKey
          (amountLabel amount req.body.inputOptions.currency)), [⟨secretKey, params⟩])
  | Except.error e => (catchBranch e, [⟨secretKey, params⟩])

/-- Lines 37–99 of the source: the request handler.  The second component is the
gateway-call spy: every invocation of `stripe.paymentIntents.create`, with the
secret key the client was constructed with.  The `forbidden`, `badRequest` and
`methodNotAllowed` helpers from `utils` (not under `src/`) are modelled from the
spec as bare 403, 400 and 405 responses. -/
def handler (env : Env) (req : ApiRequest) : Outcome × List GatewayCall :=
  if req.method = "POST" then
    if truthyOpt req.body.inputOptions.credentialsId = false then
      (Outcome.response 403 Body.empty, [])
    else
      match getStripeInfo env (req.body.inputOptions.credentialsId.getD "") with
      | Except.error e => (Outcome.crash e, [])
      | Except.ok none => (Outcome.response 403 Body.empty, [])
      | Except.ok (some stripeKeys) =>
        match selectSecretKey stripeKeys req.body.isPreview with
        | Except.error e => (Outcome.crash e, [])
        | Except.ok secretKey =>
          match computeAmount (env.parseVariables req.body.vars (some req.body.inputOptions.amount)) with
          | none => (Outcome.response 400 Body.empty, [])
          | some amount => gatewayStage env req stripeKeys secretKey amount
  else (Outcome.response 405 Body.empty, [])

/-- Modelled from the spec: the HTTP status the caller observes for an outcome.  An
exception escaping the handler is surfaced by the platform wrapper as an internal
HTTP 500 failure (spec §6: "HTTP 500 — any other internal failure"). -/
def observedStatus : Outcome → Nat
  | Outcome.response status _ => status
  | Outcome.crash _ => 500

/-- Credential set with both environments populated (distinct keys). -/
def fullCreds : StripeCredentialsData :=
  { live := some { publicKey := "pk_live", secretKey := "sk_live" }
    test := some { publicKey := "pk_test", secretKey := "sk_test" } }

/-- Credential set with only the live environment. -/
def liveOnlyCreds : StripeCredentialsData :=
  { live := some { publicKey := "pk_live", secretKey := "sk_live" }, test := none }

/-- Credential set with no environments at all. -/
def noKeysCreds : StripeCredentialsData := { live := none, test := none }

/-- A structured Stripe failure: card declined on the `cvc` parameter. -/
def cardError : JsError :=
  { raw := some { statusCode := 402, type := "card_error", param := "cvc"
                  message := "Your card security code is incorrect." }
    message := "" }

/-- An unstructured failure (no `raw` property). -/
def plainError : JsError := { raw := none, message := "connection reset" }

/-- A decryption failure thrown by the `decrypt` helper. -/
def decryptError : JsError := { raw := none, message := "bad initialization vector" }

/-- A gateway that always succeeds with a fixed client secret. -/
def okGateway : String → PaymentIntentParams → Except JsError PaymentIntent :=
  fun _ _ => Except.ok { client_secret := "cs_123" }

/-- A gateway that always throws the given error. -/
def failGateway (e : JsError) : String → PaymentIntentParams → Except JsError PaymentIntent :=
  fun _ _ => Except.error e

/-- Store environment: one credential record under id `cred1` decrypting to the given
credential set, identity interpolation, and the given gateway behaviour. -/
def storeEnv (creds : StripeCredentialsData)
    (gateway : String → PaymentIntentParams → Except JsError PaymentIntent) : Env :=
  { findUnique := fun id => if id = "cred1" then some { data := "blob", iv := "iv" } else none
    decrypt := fun _ _ => Except.ok creds
    parseVariables := fun _ t => t.getD ""
    paymentIntentsCreate := gateway }

/-- Environment whose stored record fails to decrypt. -/
def decryptFailEnv : Env :=
  { findUnique := fun id => if id = "cred1" then some { data := "blob", iv := "iv" } else none
    decrypt := fun _ _ => Except.error decryptError
    parseVariables := fun _ t => t.getD ""
    paymentIntentsCreate := okGateway }

/-- A well-formed POST request against credential record `cred1`. -/
def mkReq (isPreview : Bool) (amount currency : String) (email : Option String) : ApiRequest :=
  { method := "POST"
    body :=
      { inputOptions :=
          { credentialsId := some "cred1", amount := amount, currency := currency
            additionalInformation := some { email := email } }
        isPreview := isPreview
        vars := [] } }

lemma jsRound_eq_round (q : ℚ) : jsRound q = round q := by
  rw [jsRound, round_eq]
  norm_num [Rat.mkRat_eq_div]

lemma handler_reaches_gateway
    (env : Env) (req : ApiRequest) (cid : String) (stripeKeys : StripeCredentialsData)
    (secretKey : String) (amount : ℤ)
    (hm : req.method = "POST")
    (hcid : req.body.inputOptions.credentialsId = some cid)
    (hne : cid ≠ "")
    (hinfo : getStripeInfo env cid = Except.ok (some stripeKeys))
    (hsk : selectSecretKey stripeKeys req.body.isPreview = Except.ok secretKey)
    (hamt : computeAmount (env.parseVariables req.body.vars (some req.body.inputOptions.amount))
      = some amount) :
    handler env req = gatewayStage env req stripeKeys secretKey amount := by
  unfold handler
  simp [hm, hcid, truthyOpt, hne, hinfo, hsk, hamt]

lemma gatewayStage_snd (env : Env) (req : ApiRequest) (stripeKeys : StripeCredentialsData)
    (secretKey : String) (amount : ℤ) :
    (gatewayStage env req stripeKeys secretKey amount).2 =
      [⟨secretKey, paymentParams env req amount⟩] := by
  unfold gatewayStage
  cases henv : env.paymentIntentsCreate secretKey (paymentParams env req amount) with
  | ok paymentIntent =>
    cases hpk : selectPublicKey stripeKeys req.body.isPreview with
    | ok publicKey => simp [henv, hpk]
    | error e => simp [henv, hpk]
  | error e => simp [henv]

/-- C2: if the interpolated amount expression does not parse as a number (`NaN`),
the handler answers HTTP 400 with an empty body and the gateway-call spy records no
invocation. -/
theorem nan_amount_returns_400_without_gateway_call
    (env : Env) (req : ApiRequest) (cid : String) (stripeKeys : StripeCredentialsData)
    (secretKey : String)
    (hm : req.method = "POST")
    (hcid : req.body.inputOptions.credentialsId = some cid)
    (hne : cid ≠ "")
    (hinfo : getStripeInfo env cid = Except.ok (some stripeKeys))
    (hsk : selectSecretKey stripeKeys req.body.isPreview = Except.ok secretKey)
    (hnan : jsNumber (env.parseVariables req.body.vars (some req.body.inputOptions.amount))
      = none) :
    handler env req = (Outcome.response 400 Body.empty, []) := by
  have hamt : computeAmount (env.parseVariables req.body.vars (some req.body.inputOptions.amount))
      = none := by
    unfold computeAmount
    rw [hnan]
  unfold handler
  simp [hm, hcid, truthyOpt, hne, hinfo, hsk, hamt]

theorem nan_amount_returns_400_without_gateway_call_witness :
    handler (storeEnv fullCreds okGateway) (mkReq false "abc" "USD" none)
      = (Outcome.response 400 Body.empty, []) :=
  nan_amount_returns_400_without_gateway_call (storeEnv fullCreds okGateway)
    (mkReq false "abc" "USD" none) "cred1" fullCreds "sk_live"
    rfl rfl (by decide) (by decide) (by decide) (by decide)

/-- C3: the amount sent to the gateway is the interpolated amount expression parsed
as a decimal number, multiplied by 100 and rounded to the nearest integer with
halves rounded up (Mathlib's `round`, which satisfies `round x = ⌊x + 1/2⌋`). -/
theorem gateway_amount_is_parsed_value_times_100_rounded
    (env : Env) (req : ApiRequest) (cid : String) (stripeKeys : StripeCredentialsData)
    (secretKey : String) (q : ℚ)
    (hm : req.method = "POST")
    (hcid : req.body.inputOptions.credentialsId = some cid)
    (hne : cid ≠ "")
    (hinfo : getStripeInfo env cid = Except.ok (some stripeKeys))
    (hsk : selectSecretKey stripeKeys req.body.isPreview = Except.ok secretKey)
    (hq : jsNumber (env.parseVariables req.body.vars (some req.body.inputOptions.amount))
      = some q) :
    ((handler env req).2).map (fun c => c.params.amount) = [round (q * 100)] := by
  have hamt : computeAmount (env.parseVariables req.body.vars (some req.body.inputOptions.amount))
      = some (jsRound (q * 100)) := by
    unfold computeAmount
    rw [hq]
  rw [handler_reaches_gateway env req cid stripeKeys secretKey _ hm hcid hne hinfo hsk hamt,
    gatewayStage_snd]
  simp [paymentParams, jsRound_eq_round]

theorem gateway_amount_is_parsed_value_times_100_rounded_witness :
    ((handler (storeEnv fullCreds okGateway) (mkReq false "19.999" "USD" none)).2).map
      (fun c => c.params.amount) = [2000] := by
  have h := gateway_amount_is_parsed_value_times_100_rounded (storeEnv fullCreds okGateway)
    (mkReq false "19.999" "USD" none) "cred1" fullCreds "sk_live" (mkRat 19999 1000)
    rfl rfl (by decide) (by decide) (by decide) (by decide)
  rw [h]
  norm_num [round_eq, Rat.mkRat_eq_div]

/-- C1: under a resolved credential set with a live entry, the secret key recorded
by the gateway spy is the test secret key exactly when `isPreview` holds and a
(truthy) test secret key exists, and the live secret key otherwise; independently,
the public key in the success response is the test public key exactly when
`isPreview` holds and a (truthy) test public key exists, and the live public key
otherwise. -/
theorem preview_key_selection
    (env : Env) (req : ApiRequest) (cid : String) (stripeKeys : StripeCredentialsData)
    (live : StripeKeys) (q : ℚ) (intent : PaymentIntent)
    (hm : req.method = "POST")
    (hcid : req.body.inputOptions.credentialsId = some cid)
    (hne : cid ≠ "")
    (hinfo : getStripeInfo env cid = Except.ok (some stripeKeys))
    (hlive : stripeKeys.live = some live)
    (hq : jsNumber (env.parseVariables req.body.vars (some req.body.inputOptions.amount))
      = some q)
    (hgw : ∀ k p, env.paymentIntentsCreate k p = Except.ok intent) :
    ((handler env req).2).map GatewayCall.secretKey =
      [if req.body.isPreview && hasTestSecretKey stripeKeys then testSecretKey stripeKeys
       else live.secretKey]
    ∧ ∃ label, (handler env req).1 =
        Outcome.response 200 (Body.success intent.client_secret
          (if req.body.isPreview && hasTestPublicKey stripeKeys then testPublicKey stripeKeys
           else live.publicKey) label) := by
  have hsk : selectSecretKey stripeKeys req.body.isPreview
      = Except.ok (if req.body.isPreview && hasTestSecretKey stripeKeys
          then testSecretKey stripeKeys else live.secretKey) := by
    unfold selectSecretKey
    by_cases h : (req.body.isPreview && hasTestSecretKey stripeKeys) = true
    · simp [h]
    · simp [h, hlive]
  have hpk : selectPublicKey stripeKeys req.body.isPreview
      = Except.ok (if req.body.isPreview && hasTestPublicKey stripeKeys
          then testPublicKey stripeKeys else live.publicKey) := by
    unfold selectPublicKey
    by_cases h : (req.body.isPreview && hasTestPublicKey stripeKeys) = true
    · simp [h]
    · simp [h, hlive]
  have hamt : computeAmount (env.parseVariables req.body.vars (some req.body.inputOptions.amount))
      = some (jsRound (q * 100)) := by
    unfold computeAmount
    rw [hq]
  have hrun := handler_reaches_gateway env req cid stripeKeys _ _ hm hcid hne hinfo hsk hamt
  constructor
  · rw [hrun, gatewayStage_snd]
    rfl
  · refine ⟨amountLabel (jsRound (q * 100)) req.body.inputOptions.currency, ?_⟩
    rw [hrun]
    simp [gatewayStage, hgw, hpk]

theorem preview_key_selection_witness :
    (((handler (storeEnv fullCreds okGateway) (mkReq true "10" "USD" none)).2).map
        GatewayCall.secretKey = ["sk_test"]
      ∧ ∃ label, (handler (storeEnv fullCreds okGateway) (mkReq true "10" "USD" none)).1
          = Outcome.response 200 (Body.success "cs_123" "pk_test" label))
    ∧ (((handler (storeEnv liveOnlyCreds okGateway) (mkReq true "10" "USD" none)).2).map
        GatewayCall.secretKey = ["sk_live"]
      ∧ ∃ label, (handler (storeEnv liveOnlyCreds okGateway) (mkReq true "10" "USD" none)).1
          = Outcome.response 200 (Body.success "cs_123" "pk_live" label)) := by
  constructor
  · have h := preview_key_selection (storeEnv fullCreds okGateway)
      (mkReq true "10" "USD" none) "cred1" fullCreds
      { publicKey := "pk_live", secretKey := "sk_live" } (mkRat 10 1)
      { client_secret := "cs_123" } rfl rfl (by decide) (by decide) rfl (by decide)
      (fun _ _ => rfl)
    simpa [mkReq, fullCreds, hasTestSecretKey, hasTestPublicKey, testSecretKey, testPublicKey,
      truthyOpt] using h
  · have h := preview_key_selection (storeEnv liveOnlyCreds okGateway)
      (mkReq true "10" "USD" none) "cred1" liveOnlyCreds
      { publicKey := "pk_live", secretKey := "sk_live" } (mkRat 10 1)
      { client_secret := "cs_123" } rfl rfl (by decide) (by decide) rfl (by decide)
      (fun _ _ => rfl)
    simpa [mkReq, liveOnlyCreds, hasTestSecretKey, hasTestPublicKey, testSecretKey,
      testPublicKey, truthyOpt] using h

/-- C4: a gateway failure carrying a nested `raw` payload is answered with HTTP
status `raw.statusCode` and an error body whose name is `raw.type` and `raw.param`
joined by a single space and whose message is `raw.message`. -/
theorem structured_gateway_failure_passthrough
    (env : Env) (req : ApiRequest) (cid : String) (stripeKeys : StripeCredentialsData)
    (secretKey : String) (amount : ℤ) (e : JsError) (raw : RawPayload)
    (hm : req.method = "POST")
    (hcid : req.body.inputOptions.credentialsId = some cid)
    (hne : cid ≠ "")
    (hinfo : getStripeInfo env cid = Except.ok (some stripeKeys))
    (hsk : selectSecretKey stripeKeys req.body.isPreview = Except.ok secretKey)
    (hamt : computeAmount (env.parseVariables req.body.vars (some req.body.inputOptions.amount))
      = some amount)
    (hgw : env.paymentIntentsCreate secretKey (paymentParams env req amount) = Except.error e)
    (hraw : e.raw = some raw) :
    (handler env req).1 =
      Outcome.response raw.statusCode
        (Body.errorNamed (raw.type ++ " " ++ raw.param) raw.message) := by
  rw [handler_reaches_gateway env req cid stripeKeys secretKey amount hm hcid hne hinfo hsk hamt]
  simp [gatewayStage, hgw, catchBranch, hraw]

theorem structured_gateway_failure_passthrough_witness :
    (handler (storeEnv fullCreds (failGateway cardError)) (mkReq false "10" "USD" none)).1 =
      Outcome.response 402
        (Body.errorNamed "card_error cvc" "Your card security code is incorrect.") := by
  have h := structured_gateway_failure_passthrough
    (storeEnv fullCreds (failGateway cardError)) (mkReq false "10" "USD" none)
    "cred1" fullCreds "sk_live" 1000 cardError
    { statusCode := 402, type := "card_error", param := "cvc"
      message := "Your card security code is incorrect." }
    rfl rfl (by decide) (by decide) (by decide) (by decide) (by decide) (by decide)
  simpa using h

/-- C5 counterexample: a gateway failure without a `raw` payload is answered with
HTTP 500 whose body forwards the thrown error itself (`{error: <serialized error>}`);
the body is not the normalized `{name: "internal", message: ...}` record the claim
describes. -/
theorem generic_failure_not_named_internal :
    (handler (storeEnv fullCreds (failGateway plainError)) (mkReq false "10" "USD" none)).1
      = Outcome.response 500 (Body.errorRaw plainError)
    ∧ Outcome.response 500 (Body.errorRaw plainError)
      ≠ Outcome.response 500 (Body.errorNamed "internal" plainError.message) := by
  decide

/-- C5 (amended): a gateway failure without a `raw` payload is answered with HTTP
500 and a body carrying the serialized thrown error itself (`{error: <error>}`),
with no name/message normalization applied. -/
theorem generic_failure_500_forwards_error
    (env : Env) (req : ApiRequest) (cid : String) (stripeKeys : StripeCredentialsData)
    (secretKey : String) (amount : ℤ) (e : JsError)
    (hm : req.method = "POST")
    (hcid : req.body.inputOptions.credentialsId = some cid)
    (hne : cid ≠ "")
    (hinfo : getStripeInfo env cid = Except.ok (some stripeKeys))
    (hsk : selectSecretKey stripeKeys req.body.isPreview = Except.ok secretKey)
    (hamt : computeAmount (env.parseVariables req.body.vars (some req.body.inputOptions.amount))
      = some amount)
    (hgw : env.paymentIntentsCreate secretKey (paymentParams env req amount) = Except.error e)
    (hraw : e.raw = none) :
    (handler env req).1 = Outcome.response 500 (Body.errorRaw e) := by
  rw [handler_reaches_gateway env req cid stripeKeys secretKey amount hm hcid hne hinfo hsk hamt]
  simp [gatewayStage, hgw, catchBranch, hraw]

theorem generic_failure_500_forwards_error_witness :
    (handler (storeEnv fullCreds (failGateway plainError)) (mkReq false "10" "USD" none)).1
      = Outcome.response 500 (Body.errorRaw plainError) :=
  generic_failure_500_forwards_error (storeEnv fullCreds (failGateway plainError))
    (mkReq false "10" "USD" none) "cred1" fullCreds "sk_live" 1000 plainError
    rfl rfl (by decide) (by decide) (by decide) (by decide) (by decide) (by decide)

/-- C6 counterexample: a credential set that resolves successfully but contains no
key material at all (no `live` entry, no `test` entry) does not produce an HTTP 403
authorization failure — reading `stripeKeys.live.secretKey` throws an uncaught type
error instead (surfaced by the platform as a 500 internal failure). -/
theorem missing_live_entry_is_not_403 :
    (handler (storeEnv noKeysCreds okGateway) (mkReq false "10" "USD" none)).1
      = Outcome.crash typeErrorUndefined
    ∧ observedStatus (handler (storeEnv noKeysCreds okGateway) (mkReq false "10" "USD" none)).1
      ≠ 403 := by
  decide

/-- C6 (amended): when the resolved credential set has no usable secret key (no
`live` entry and no applicable test secret key), the pipeline terminates before the
gateway call with an uncaught type error — surfaced as an internal (HTTP 500)
failure, not an HTTP 403 authorization failure; the 403 responses arise only from a
missing `credentialsId` or an unresolvable credential record. -/
theorem no_usable_secret_key_crashes
    (env : Env) (req : ApiRequest) (cid : String) (stripeKeys : StripeCredentialsData)
    (hm : req.method = "POST")
    (hcid : req.body.inputOptions.credentialsId = some cid)
    (hne : cid ≠ "")
    (hinfo : getStripeInfo env cid = Except.ok (some stripeKeys))
    (hlive : stripeKeys.live = none)
    (hnotest : (req.body.isPreview && hasTestSecretKey stripeKeys) = false) :
    handler env req = (Outcome.crash typeErrorUndefined, [])
    ∧ observedStatus (handler env req).1 = 500 := by
  have hsk : selectSecretKey stripeKeys req.body.isPreview
      = Except.error typeErrorUndefined := by
    unfold selectSecretKey
    simp [hnotest, hlive]
  have hout : handler env req = (Outcome.crash typeErrorUndefined, []) := by
    unfold handler
    simp [hm, hcid, truthyOpt, hne, hinfo, hsk]
  exact ⟨hout, by rw [hout]; rfl⟩

theorem no_usable_secret_key_crashes_witness :
    handler (storeEnv noKeysCreds okGateway) (mkReq false "10" "USD" none)
      = (Outcome.crash typeErrorUndefined, [])
    ∧ observedStatus (handler (storeEnv noKeysCreds okGateway) (mkReq false "10" "USD" none)).1
      = 500 :=
  no_usable_secret_key_crashes (storeEnv noKeysCreds okGateway) (mkReq false "10" "USD" none)
    "cred1" noKeysCreds rfl rfl (by decide) (by decide) rfl rfl

/-- C7: when the credential record is found but decryption fails, the thrown error
propagates out of the handler unchanged (it is neither swallowed nor reclassified)
and the caller observes an internal HTTP 500 failure; the gateway is never
invoked. -/
theorem decrypt_failure_propagates_as_internal
    (env : Env) (req : ApiRequest) (cid : String) (record : CredentialsRecord) (e : JsError)
    (hm : req.method = "POST")
    (hcid : req.body.inputOptions.credentialsId = some cid)
    (hne : cid ≠ "")
    (hrec : env.findUnique cid = some record)
    (hdec : env.decrypt record.data record.iv = Except.error e) :
    handler env req = (Outcome.crash e, [])
    ∧ observedStatus (handler env req).1 = 500 := by
  have hinfo : getStripeInfo env cid = Except.error e := by
    unfold getStripeInfo
    rw [hrec]
    simp [hdec, Except.map]
  have hout : handler env req = (Outcome.crash e, []) := by
    unfold handler
    simp [hm, hcid, truthyOpt, hne, hinfo]
  exact ⟨hout, by rw [hout]; rfl⟩

theorem decrypt_failure_propagates_as_internal_witness :
    handler decryptFailEnv (mkReq false "10" "USD" none) = (Outcome.crash decryptError, [])
    ∧ observedStatus (handler decryptFailEnv (mkReq false "10" "USD" none)).1 = 500 :=
  decrypt_failure_propagates_as_internal decryptFailEnv (mkReq false "10" "USD" none)
    "cred1" { data := "blob", iv := "iv" } decryptError rfl rfl (by decide) rfl rfl

/-- C8: when the receipt-email expression interpolates to the empty string the
gateway receives no receipt-email field at all (`none`); when it interpolates to a
nonempty string, that string is passed through. -/
theorem empty_receipt_email_sent_as_absent
    (env : Env) (req : ApiRequest) (cid : String) (stripeKeys : StripeCredentialsData)
    (secretKey : String) (amount : ℤ) (r : String)
    (hm : req.method = "POST")
    (hcid : req.body.inputOptions.credentialsId = some cid)
    (hne : cid ≠ "")
    (hinfo : getStripeInfo env cid = Except.ok (some stripeKeys))
    (hsk : selectSecretKey stripeKeys req.body.isPreview = Except.ok secretKey)
    (hamt : computeAmount (env.parseVariables req.body.vars (some req.body.inputOptions.amount))
      = some amount)
    (hr : env.parseVariables req.body.vars
        (req.body.inputOptions.additionalInformation.bind AdditionalInfo.email) = r) :
    ((handler env req).2).map (fun c => c.params.receipt_email) =
      [if r = "" then none else some r] := by
  rw [handler_reaches_gateway env req cid stripeKeys secretKey amount hm hcid hne hinfo hsk hamt,
    gatewayStage_snd]
  simp [paymentParams, hr]

theorem empty_receipt_email_sent_as_absent_witness :
    ((handler (storeEnv fullCreds okGateway) (mkReq false "10" "USD" (some ""))).2).map
      (fun c => c.params.receipt_email) = [none]
    ∧ ((handler (storeEnv fullCreds okGateway) (mkReq false "10" "USD" (some "a@b.co"))).2).map
      (fun c => c.params.receipt_email) = [some "a@b.co"] := by
  constructor
  · have h := empty_receipt_email_sent_as_absent (storeEnv fullCreds okGateway)
      (mkReq false "10" "USD" (some "")) "cred1" fullCreds "sk_live" 1000 ""
      rfl rfl (by decide) (by decide) (by decide) (by decide) rfl
    simpa using h
  · have h := empty_receipt_email_sent_as_absent (storeEnv fullCreds okGateway)
      (mkReq false "10" "USD" (some "a@b.co")) "cred1" fullCreds "sk_live" 1000 "a@b.co"
      rfl rfl (by decide) (by decide) (by decide) (by decide) rfl
    simpa using h

/-- C9: the success response's amount label is the decimal rendering of the minor
units divided by 100, followed immediately (no space) by the symbol from the fixed
currency table when the code is present there, and otherwise by a space and the
currency code itself. -/
theorem amount_label_symbol_or_code
    (env : Env) (req : ApiRequest) (cid : String) (stripeKeys : StripeCredentialsData)
    (secretKey : String) (amount : ℤ) (publicKey : String) (intent : PaymentIntent)
    (hm : req.method = "POST")
    (hcid : req.body.inputOptions.credentialsId = some cid)
    (hne : cid ≠ "")
    (hinfo : getStripeInfo env cid = Except.ok (some stripeKeys))
    (hsk : selectSecretKey stripeKeys req.body.isPreview = Except.ok secretKey)
    (hamt : computeAmount (env.parseVariables req.body.vars (some req.body.inputOptions.amount))
      = some amount)
    (hgw : env.paymentIntentsCreate secretKey (paymentParams env req amount) = Except.ok intent)
    (hpk : selectPublicKey stripeKeys req.body.isPreview = Except.ok publicKey) :
    (handler env req).1 =
      Outcome.response 200 (Body.success intent.client_secret publicKey
        (renderCents amount ++
          (match currencySymbol? req.body.inputOptions.currency with
           | some symbol => symbol
           | none => " " ++ req.body.inputOptions.currency))) := by
  rw [handler_reaches_gateway env req cid stripeKeys secretKey amount hm hcid hne hinfo hsk hamt]
  simp [gatewayStage, hgw, hpk, amountLabel]

theorem amount_label_symbol_or_code_witness :
    (handler (storeEnv fullCreds okGateway) (mkReq false "10" "USD" none)).1
      = Outcome.response 200 (Body.success "cs_123" "pk_live" "10$")
    ∧ (handler (storeEnv fullCreds okGateway) (mkReq false "10" "XYZ" none)).1
      = Outcome.response 200 (Body.success "cs_123" "pk_live" "10 XYZ") := by
  have h1 := amount_label_symbol_or_code (storeEnv fullCreds okGateway)
    (mkReq false "10" "USD" none) "cred1" fullCreds "sk_live" 1000 "pk_live"
    { client_secret := "cs_123" }
    rfl rfl (by decide) (by decide) (by decide) (by decide) (by decide) (by decide)
  have h2 := amount_label_symbol_or_code (storeEnv fullCreds okGateway)
    (mkReq false "10" "XYZ" none) "cred1" fullCreds "sk_live" 1000 "pk_live"
    { client_secret := "cs_123" }
    rfl rfl (by decide) (by decide) (by decide) (by decide) (by decide) (by decide)
  exact ⟨by rw [h1]; decide, by rw [h2]; decide⟩

/-- C10: classification of a thrown gateway failure is decided solely by the
presence of the `raw` payload: with it, the response is `raw.statusCode` with the
name built from `raw.type` and `raw.param` — whatever their contents — and without
it, the response is the generic HTTP 500 bucket forwarding the error. -/
theorem gateway_error_classified_solely_by_raw
    (env : Env) (req : ApiRequest) (cid : String) (stripeKeys : StripeCredentialsData)
    (secretKey : String) (amount : ℤ) (e : JsError)
    (hm : req.method = "POST")
    (hcid : req.body.inputOptions.credentialsId = some cid)
    (hne : cid ≠ "")
    (hinfo : getStripeInfo env cid = Except.ok (some stripeKeys))
    (hsk : selectSecretKey stripeKeys req.body.isPreview = Except.ok secretKey)
    (hamt : computeAmount (env.parseVariables req.body.vars (some req.body.inputOptions.amount))
      = some amount)
    (hgw : env.paymentIntentsCreate secretKey (paymentParams env req amount) = Except.error e) :
    (handler env req).1 =
      (match e.raw with
       | some raw => Outcome.response raw.statusCode
           (Body.errorNamed (raw.type ++ " " ++ raw.param) raw.message)
       | none => Outcome.response 500 (Body.errorRaw e)) := by
  rw [handler_reaches_gateway env req cid stripeKeys secretKey amount hm hcid hne hinfo hsk hamt]
  simp [gatewayStage, hgw, catchBranch]

theorem gateway_error_classified_solely_by_raw_witness :
    (handler (storeEnv fullCreds (failGateway cardError)) (mkReq false "10" "USD" none)).1
      = Outcome.response 402
          (Body.errorNamed "card_error cvc" "Your card security code is incorrect.")
    ∧ (handler (storeEnv fullCreds (failGateway plainError)) (mkReq false "10" "USD" none)).1
      = Outcome.response 500 (Body.errorRaw plainError) := by
  have h1 := gateway_error_classified_solely_by_raw
    (storeEnv fullCreds (failGateway cardError)) (mkReq false "10" "USD" none)
    "cred1" fullCreds "sk_live" 1000 cardError
    rfl rfl (by decide) (by decide) (by decide) (by decide) (by decide)
  have h2 := gateway_error_classified_solely_by_raw
    (storeEnv fullCreds (failGateway plainError)) (mkReq false "10" "USD" none)
    "cred1" fullCreds "sk_live" 1000 plainError
    rfl rfl (by decide) (by decide) (by decide) (by decide) (by decide)
  exact ⟨by rw [h1]; decide, by rw [h2]; decide⟩

end CreatePaymentIntent
